import Mathlib

/-!
Verification of the Genie API client and response-normalization layer of
`giranm/databricks-apps-scratchpad` (files `genie-gradio/libs/genie.py` and
`genie-gradio/app.py`), shallowly embedded in Lean 4.

Modelling conventions:
* Python dictionaries are embedded as structures whose fields are `Option`s;
  `none` stands for an absent key (or a `None` value), so that `d.get(k)`
  becomes a field projection and a `KeyError` access becomes a failed
  `Option.bind`.
* Python truthiness on strings (`None` and `""` are falsy) is `strTruthy`.
* Exceptions that escape a function are modelled by an `Option`/sum result;
  `none` (or a dedicated constructor) marks the raising path.
* Logging calls are side effects with no influence on any return value and
  are not modelled.
-/

namespace Genie

/-- Result of `attachment.get("text", {})`: an attachment's `text` block,
whose `content` key may be absent (`none`). -/
structure TextAtt where
  content : Option String
deriving DecidableEq, Repr

/-- Result of `attachment.get("query")` when it is a (truthy) dictionary: the
`description` key may be absent (`none`). -/
structure QueryAtt where
  description : Option String
deriving DecidableEq, Repr

/-- One element of a message's `attachments` list, as the code observes it.
`text = none` models both an absent `"text"` key and a falsy value there
(the code's `attachment.get("text", {}).get("content")` conflates them);
likewise `query = none` models an absent or falsy `"query"` value, since the
code tests it with `if query := attachments.get("query")`. -/
structure Attachment where
  text : Option TextAtt
  query : Option QueryAtt
deriving DecidableEq, Repr

/-- A message record (`response.as_dict()` of the SDK message, or the message
dictionary handled by `_format_response`), restricted to the keys the code
reads: `id`, `conversation_id` and `attachments`. -/
structure Message where
  id : Option String
  conversation_id : Option String
  attachments : Option (List Attachment)
deriving DecidableEq, Repr

/-- One element of a `data_typed_array` row's `values` list; the code reads
its `"str"` key (`value["str"]`), which may be absent. -/
structure TypedValue where
  str : Option String
deriving DecidableEq, Repr

/-- One element of `data_typed_array`; the code reads its `"values"` key. -/
structure TypedRow where
  values : Option (List TypedValue)
deriving DecidableEq, Repr

/-- One element of `schema["columns"]`; the code reads its `"name"` key. -/
structure ColumnInfo where
  name : Option String
deriving DecidableEq, Repr

/-- The `schema` dictionary of the statement manifest. -/
structure ResultSchema where
  columns : Option (List ColumnInfo)
deriving DecidableEq, Repr

/-- The `manifest` dictionary of a statement response. -/
structure Manifest where
  schema : Option ResultSchema
deriving DecidableEq, Repr

/-- The `result` dictionary of a statement response. -/
structure StatementResult where
  data_typed_array : Option (List TypedRow)
deriving DecidableEq, Repr

/-- The `statement_response` dictionary of a raw query result. -/
structure StatementResponse where
  manifest : Option Manifest
  result : Option StatementResult
deriving DecidableEq, Repr

/-- A raw query-result payload, as consumed by `transform_query_result`. -/
structure QueryResult where
  statement_response : Option StatementResponse
deriving DecidableEq, Repr

/-- Python truthiness of an optional string: `None` and `""` are falsy,
every other string is truthy. -/
def strTruthy : Option String → Bool
  | none => false
  | some s => !(s == "")

/-- All-or-nothing traversal of a list under a partial elementwise function.
This is how a Python list comprehension whose body can raise `KeyError`
behaves inside a `try` block: one failing element fails the whole
comprehension. -/
def traverseOpt (f : α → Option β) : List α → Option (List β)
  | [] => some []
  | a :: as =>
    (f a).bind fun b => (traverseOpt f as).bind fun bs => some (b :: bs)

/-- Access chain `query_result["statement_response"]["manifest"]["schema"]["columns"]`
from `transform_query_result` (genie.py lines 313-314); `none` is a `KeyError`. -/
def schemaCols (q : QueryResult) : Option (List ColumnInfo) :=
  q.statement_response.bind fun sr =>
    sr.manifest.bind fun m =>
      m.schema.bind fun sch => sch.columns

/-- Access chain `query_result["statement_response"]["result"]["data_typed_array"]`
from `transform_query_result` (genie.py line 316). -/
def dataRowsOf (q : QueryResult) : Option (List TypedRow) :=
  q.statement_response.bind fun sr =>
    sr.result.bind fun res => res.data_typed_array

/-- The comprehension `[col["name"] for col in schema["columns"]]`
(genie.py line 314). -/
def transformColumns (q : QueryResult) : Option (List String) :=
  (schemaCols q).bind (traverseOpt ColumnInfo.name)

/-- The inner comprehension `[value["str"] for value in row["values"]]`
(genie.py line 317). -/
def rowStrings (row : TypedRow) : Option (List String) :=
  row.values.bind (traverseOpt TypedValue.str)

/-- The outer comprehension `[[...] for row in data]` (genie.py line 317). -/
def transformRows (q : QueryResult) : Option (List (List String)) :=
  (dataRowsOf q).bind (traverseOpt rowStrings)

/-- The `try` body of `transform_query_result` (genie.py lines 312-319):
`some (columns, rows)` when every key access succeeds, `none` when any
access raises `KeyError`. -/
def transformParse (q : QueryResult) : Option (List String × List (List String)) :=
  (transformColumns q).bind fun columns =>
    (transformRows q).bind fun rows => some (columns, rows)

/-- `GenieHandler.transform_query_result` (genie.py lines 298-323): returns
the parsed `(columns, rows)` pair, and `([], [])` when a `KeyError` was
caught (the `except KeyError` branch logs and returns `[], []`). -/
def transform_query_result (q : QueryResult) : List String × List (List String) :=
  (transformParse q).getD ([], [])

end Genie

namespace Genie

/-- Builds a raw query-result value with the given column names and rows,
every key present; used for concrete test inputs. -/
def mkQueryResult (cols : List String) (rows : List (List String)) : QueryResult :=
  let colInfos : List ColumnInfo := cols.map fun c => { name := some c }
  let typedRows : List TypedRow :=
    rows.map fun r => { values := some (r.map fun v => { str := some v }) }
  let man : Manifest := { schema := some { columns := some colInfos } }
  let res : StatementResult := { data_typed_array := some typedRows }
  { statement_response := some { manifest := some man, result := some res } }

/-! ## Conversation protocol: `start_conversation` and `create_message` -/

/-- Terminal statuses of the SDK's `MessageStatus` enum, as compared against
`MessageStatus.COMPLETED` in genie.py lines 170 and 198.  Only equality with
`COMPLETED` is ever inspected, so a representative subset of the enum
suffices. -/
inductive MessageStatus where
  | COMPLETED
  | FAILED
  | CANCELLED
  | QUERY_RESULT_EXPIRED
  | SUBMITTED
deriving DecidableEq, Repr

/-- A raised Python error, split by where it sits in the exception hierarchy:
`exc` derives from `Exception` (and is caught by `except Exception`),
`baseExc` derives only from `BaseException` (e.g. `KeyboardInterrupt`,
`SystemExit`) and is not caught by `except Exception`. -/
inductive PyError where
  | exc (msg : String)
  | baseExc (msg : String)
deriving DecidableEq, Repr

/-- Possible outcomes of the SDK wait-RPCs `start_conversation_and_wait` /
`create_message_and_wait`: either a message record with a terminal status,
or a raised error. -/
inductive WaitOutcome where
  | returns (status : MessageStatus) (record : Message)
  | raises (e : PyError)
deriving DecidableEq, Repr

/-- Observable result of calling a client method: a returned value, the
Python `None` sentinel, or an exception that propagated to the caller. -/
inductive CallResult (α : Type) where
  | ok (a : α)
  | pyNone
  | raised (e : PyError)
deriving DecidableEq, Repr

/-- `GenieHandler.start_conversation` (genie.py lines 153-178), parameterized
by the outcome of the underlying `start_conversation_and_wait` RPC.  Returns
the record's dictionary on `COMPLETED`, logs and returns `None` on any other
returned status, logs and returns `None` on any raised `Exception`; an error
outside the `Exception` hierarchy is not caught and propagates. -/
def start_conversation (outcome : WaitOutcome) : CallResult Message :=
  match outcome with
  | .returns s m => if s = .COMPLETED then .ok m else .pyNone
  | .raises (.exc _) => .pyNone
  | .raises (.baseExc msg) => .raised (.baseExc msg)

/-- `GenieHandler.create_message` (genie.py lines 180-206), parameterized by
the outcome of `create_message_and_wait`; same control flow as
`start_conversation`. -/
def create_message (outcome : WaitOutcome) : CallResult Message :=
  match outcome with
  | .returns s m => if s = .COMPLETED then .ok m else .pyNone
  | .raises (.exc _) => .pyNone
  | .raises (.baseExc msg) => .raised (.baseExc msg)

/-! ## Transport: `_handle_response`, `get_genie_rooms`, retry policy -/

/-- An HTTP response as observed by `_handle_response`: a status code and the
already-decoded JSON body (bodies that fail JSON decoding are outside the
modelled domain; decoding errors are not part of any claim). -/
structure HttpResponse (β : Type) where
  status : Nat
  body : β
deriving DecidableEq, Repr

/-- Result of `GenieHandler._handle_response` (genie.py lines 337-357): the
parsed body, or one of the two typed errors it raises. -/
inductive HandleResult (β : Type) where
  | ok (body : β)
  | authError (msg : String)
  | apiError (msg : String)
deriving DecidableEq, Repr

/-- Returns true exactly on the `apiError` constructor. -/
def HandleResult.isApiError : HandleResult β → Bool
  | .apiError _ => true
  | _ => false

/-- `GenieHandler._handle_response` (genie.py lines 337-357).
`response.raise_for_status()` raises `requests.exceptions.HTTPError` exactly
when `400 ≤ status < 600`; the handler converts a 401 into
`GenieAuthenticationError` and every other `HTTPError` into `GenieAPIError`,
and otherwise returns the parsed JSON body. -/
def _handle_response (r : HttpResponse β) : HandleResult β :=
  if 400 ≤ r.status ∧ r.status < 600 then
    if r.status = 401 then .authError "Authentication failed"
    else .apiError "API request failed"
  else .ok r.body

/-- A room dictionary as listed by the rooms endpoint; the app reads its
`space_id` and `display_name` keys. -/
structure Room where
  space_id : Option String
  display_name : Option String
deriving DecidableEq, Repr

/-- The envelope returned by `GET /api/2.0/data-rooms`; the `data_rooms` key
may be absent (`data.get("data_rooms")` then yields `None`). -/
structure RoomsEnvelope where
  data_rooms : Option (List Room)
deriving DecidableEq, Repr

/-- `GenieHandler.get_genie_rooms` (genie.py lines 110-127), parameterized by
the HTTP response the session's GET produced.  On a handler error
(`GenieAuthenticationError` or `GenieAPIError`) the `except` clause logs and
returns `None`; on success it returns `data.get("data_rooms")`, which is
itself `None` when the envelope lacks the key. -/
def get_genie_rooms (resp : HttpResponse RoomsEnvelope) : Option (List Room) :=
  match _handle_response resp with
  | .ok body => body.data_rooms
  | .authError _ => none
  | .apiError _ => none

/-- The `status_forcelist` of the `Retry` configuration in
`GenieHandler._create_session` (genie.py line 88). -/
def status_forcelist : List Nat := [500, 502, 503, 504]

/-- `GenieHandler.MAX_RETRIES` (genie.py line 64), passed as `Retry(total=...)`. -/
def MAX_RETRIES : Nat := 3

/-- The configured `backoff_factor=0.5` (genie.py line 87), in milliseconds
to stay in exact integer arithmetic. -/
def backoff_factor_ms : Nat := 500

/-- urllib3's `Retry.DEFAULT_BACKOFF_MAX` (120 seconds), in milliseconds. -/
def BACKOFF_MAX_MS : Nat := 120000

/-- urllib3's `Retry.get_backoff_time` for a history of `n` consecutive
errors: zero before the first retry, then
`backoff_factor * 2 ** (n - 1)` capped at the backoff maximum.  Modelled
from urllib3's documented behaviour (with `backoff_factor=0.1` the sleeps
are `[0.0s, 0.2s, 0.4s, ...]`), which the repository's session adopts via
`HTTPAdapter(max_retries=retry_strategy)`. -/
def get_backoff_time_ms (consecutive_errors : Nat) : Nat :=
  if consecutive_errors ≤ 1 then 0
  else min BACKOFF_MAX_MS (backoff_factor_ms * 2 ^ (consecutive_errors - 1))

/-- The sleep durations (ms) performed before retries `1, 2, ..., retries`. -/
def backoffSleeps (retries : Nat) : List Nat :=
  (List.range retries).map fun k => get_backoff_time_ms (k + 1)

/-- urllib3's status-based retry loop for an idempotent (GET-style) request,
as configured in `_create_session`: `stream i` is the response the server
gives to the `i`-th attempt, `remaining` is the `Retry(total=...)` counter.
A response whose status is in `status_forcelist` consumes a retry; when the
counter is exhausted and yet another listed status arrives, `MaxRetryError`
is raised (modelled as `none`).  The first component of the result is the
number of retries performed.  Modelled from urllib3's documented `Retry`
semantics, since the repository only configures the policy. -/
def runRetries (stream : Nat → HttpResponse β) : Nat → Nat → Nat × Option (HttpResponse β)
  | 0, attempt =>
    if (stream attempt).status ∈ status_forcelist then (attempt, none)
    else (attempt, some (stream attempt))
  | r + 1, attempt =>
    if (stream attempt).status ∈ status_forcelist then runRetries stream r (attempt + 1)
    else (attempt, some (stream attempt))

/-- A GET through the session mounted with the retry adapter: start at
attempt 0 with `MAX_RETRIES` retries available. -/
def session_get (stream : Nat → HttpResponse β) : Nat × Option (HttpResponse β) :=
  runRetries stream MAX_RETRIES 0

/-! ## Response disambiguation: `_format_response`, `extract_message_content` -/

/-- A reply as rendered by `_format_response` (app.py lines 234-267): the
code returns either a one-element list holding a plain string, or a
two-element list holding the query description and a dataframe built from
the normalized columns and rows.  `text s` stands for the former and
`table d cols rows` for the latter. -/
inductive Reply where
  | text (s : String)
  | table (description : String) (columns : List String) (rows : List (List String))
deriving DecidableEq, Repr

/-- The access `attachments.get("text", {}).get("content")` on an
attachment (app.py line 241). -/
def contentOf (att : Attachment) : Option String :=
  att.text.bind TextAtt.content

/-- The expression `response.get("attachments", [{}])[0]` (app.py line
238): when the key is absent the default singleton yields the empty
dictionary; when the key holds an empty list, indexing raises `IndexError`
(`none`). -/
def firstAttachment (m : Message) : Option Attachment :=
  match m.attachments with
  | none => some { text := none, query := none }
  | some [] => none
  | some (a :: _) => some a

/-- The body of `_format_response` from the first attachment on (app.py
lines 240-267), with `fetched` standing for what
`get_query_result` returns for this message.  The text branch is tested
first; a truthy `query` dictionary with a falsy description yields the
fixed placeholder; with a truthy description the raw result is fetched and
normalized into a table.  `fetched = none` (the fetch failed and returned
`None`) makes `transform_query_result` subscript `None`, raising an
uncaught `TypeError` (modelled as `none`).  An attachment with neither
part yields the no-content placeholder. -/
def formatAttachment (fetched : Option QueryResult) (att : Attachment) : Option Reply :=
  if strTruthy (contentOf att) then
    some (.text ((contentOf att).getD ""))
  else
    match att.query with
    | some q =>
      if strTruthy q.description then
        match fetched with
        | none => none
        | some qr =>
          some (.table (q.description.getD "")
            (transform_query_result qr).1 (transform_query_result qr).2)
      else some (.text "No query description available")
    | none => some (.text "No response content available")

/-- `GenieGradioApp._format_response` (app.py lines 234-267): selects the
first attachment, then disambiguates as in `formatAttachment`. -/
def _format_response (fetched : Option QueryResult) (resp : Message) : Option Reply :=
  match firstAttachment resp with
  | none => none
  | some att => formatAttachment fetched att

/-- `GenieHandler.extract_message_content` (genie.py lines 279-296):
concatenates the truthy `text.content` of ALL attachments with newlines.
This helper is defined by the client but never called by the app. -/
def extract_message_content (resp : Message) : String :=
  match resp.attachments with
  | none => ""
  | some atts =>
    String.intercalate "\n" (atts.filterMap fun a =>
      match contentOf a with
      | some s => if s == "" then none else some s
      | none => none)

/-! ## Token redaction: `validate_token` diagnostics -/

/-- The redacted token computed by `GenieGradioApp.validate_token` (app.py
lines 85-87) before it is written to the log: for tokens longer than four
characters, asterisks followed by the last four characters
(`"*" * (len(token) - 4) + token[-4:]`); otherwise the fixed mask. -/
def redact (token : String) : String :=
  if 4 < token.length then
    String.mk (List.replicate (token.length - 4) (Char.ofNat 42) ++
      token.data.drop (token.length - 4))
  else "****"

/-! ## Spec-side predicates and concrete inputs used by the claim theorems -/

/-- Wait outcomes whose raised errors, if any, derive from `Exception`; on
these the `except Exception` clauses of `start_conversation` and
`create_message` catch everything that is thrown. -/
def catchableB : WaitOutcome → Bool
  | .raises (.baseExc _) => false
  | _ => true

/-- States that a raw query result is rectangular: every row of its data
array carries exactly as many values as the schema has columns.  This is the
shape the warehouse contract promises; the spec's row/column length
invariant holds exactly on such inputs. -/
def inputRect (q : QueryResult) : Bool :=
  match schemaCols q, dataRowsOf q with
  | some cs, some data => data.all fun row => (row.values.getD []).length == cs.length
  | _, _ => true

/-- The query result of the spec's end-to-end scenario: columns
`month, count`, one row `Jan, 42`. -/
def qGood : QueryResult := mkQueryResult ["month", "count"] [["Jan", "42"]]

/-- A malformed but fully-keyed query result: one schema column, yet a row
carrying two values. -/
def qMismatch : QueryResult := mkQueryResult ["month"] [["Jan", "42"]]

/-- A query result whose `statement_response` key is absent. -/
def qMissing : QueryResult := { statement_response := none }

/-- A well-formed query result with zero columns and zero rows; parsing it
succeeds and yields the empty pair. -/
def qEmptyOk : QueryResult := mkQueryResult [] []

/-- An attachment carrying only prose text. -/
def attTextOnly : Attachment := { text := some { content := some "hi" }, query := none }

/-- An attachment carrying only a query with a non-empty description. -/
def attQueryOnly : Attachment :=
  { text := none, query := some { description := some "desc" } }

/-- An attachment dictionary carrying BOTH a truthy `text.content` and a
truthy `query.description`; nothing in the code prevents this shape. -/
def attBoth : Attachment :=
  { text := some { content := some "hello" }, query := some { description := some "desc" } }

/-- A message whose single attachment is `attBoth`. -/
def msgBoth : Message :=
  { id := some "m1", conversation_id := some "c1", attachments := some [attBoth] }

/-- A completed message record with a text attachment. -/
def mEx : Message :=
  { id := some "m1", conversation_id := some "c1", attachments := some [attTextOnly] }

/-- Response stream for the retry scenario: three 503 responses, then a 200
whose payload is 42. -/
def stream503 : Nat → HttpResponse Nat :=
  fun i => if i < 3 then { status := 503, body := 0 } else { status := 200, body := 42 }

/-! ## Helper lemmas -/

/-- An all-or-nothing traversal that succeeds preserves the list length. -/
theorem traverseOpt_length (f : α → Option β) :
    ∀ {l : List α} {l2 : List β}, traverseOpt f l = some l2 → l2.length = l.length := by
  intro l
  induction l with
  | nil =>
    intro l2 h
    simp only [traverseOpt, Option.some.injEq] at h
    simp [← h]
  | cons a as ih =>
    intro l2 h
    simp only [traverseOpt, Option.bind_eq_some, Option.some.injEq] at h
    obtain ⟨b, _, bs, hbs, h⟩ := h
    subst h
    simp [ih hbs]

/-- Every element of a successful traversal's output is the image of some
element of the input list. -/
theorem traverseOpt_mem (f : α → Option β) :
    ∀ {l : List α} {l2 : List β}, traverseOpt f l = some l2 →
      ∀ b ∈ l2, ∃ a ∈ l, f a = some b := by
  intro l
  induction l with
  | nil =>
    intro l2 h
    simp only [traverseOpt, Option.some.injEq] at h
    simp [← h]
  | cons a as ih =>
    intro l2 h b hb
    simp only [traverseOpt, Option.bind_eq_some, Option.some.injEq] at h
    obtain ⟨b0, hb0, bs, hbs, h⟩ := h
    subst h
    rw [List.mem_cons] at hb
    rcases hb with rfl | hb
    · exact ⟨a, List.mem_cons_self a as, hb0⟩
    · obtain ⟨a2, ha2, hfa2⟩ := ih hbs b hb
      exact ⟨a2, List.mem_cons_of_mem a ha2, hfa2⟩

/-! ## Claim C3 -/

/-- C3 as stated is false: `transform_query_result` is indeed deterministic,
but on the fully-keyed input `qMismatch` it succeeds while returning one
column and a row of two cells, so the returned row length differs from the
number of returned columns. -/
theorem c3_counterexample :
    transformParse qMismatch = some (["month"], [["Jan", "42"]]) ∧
    (transform_query_result qMismatch).1.length = 1 ∧
    ∃ r ∈ (transform_query_result qMismatch).2, r.length = 2 := by decide

/-- C3 amended: when parsing succeeds AND the raw input is rectangular
(each data row carries exactly as many values as the schema has columns),
every returned row has length equal to the number of returned columns.
Determinism needs no hypothesis: the embedded function is pure. -/
theorem c3_amended (q : QueryResult) (cols : List String) (rows : List (List String))
    (hp : transformParse q = some (cols, rows)) (hrect : inputRect q = true) :
    ∀ r ∈ rows, r.length = cols.length := by
  unfold transformParse at hp
  rw [Option.bind_eq_some] at hp
  obtain ⟨cols0, hcols, hp⟩ := hp
  rw [Option.bind_eq_some] at hp
  obtain ⟨rows0, hrows, hp⟩ := hp
  rw [Option.some.injEq, Prod.mk.injEq] at hp
  obtain ⟨h1, h2⟩ := hp
  rw [← h1, ← h2]
  unfold transformColumns at hcols
  rw [Option.bind_eq_some] at hcols
  obtain ⟨cs, hcs, hcolstrav⟩ := hcols
  unfold transformRows at hrows
  rw [Option.bind_eq_some] at hrows
  obtain ⟨data, hdata, hrowstrav⟩ := hrows
  unfold inputRect at hrect
  rw [hcs, hdata] at hrect
  simp only [List.all_eq_true, beq_iff_eq] at hrect
  intro r hr
  obtain ⟨row, hrowmem, hrowf⟩ := traverseOpt_mem rowStrings hrowstrav r hr
  unfold rowStrings at hrowf
  rw [Option.bind_eq_some] at hrowf
  obtain ⟨vs, hvs, htrvs⟩ := hrowf
  have hlr : r.length = vs.length := traverseOpt_length TypedValue.str htrvs
  have hlc : cols0.length = cs.length := traverseOpt_length ColumnInfo.name hcolstrav
  have hrow := hrect row hrowmem
  rw [hvs] at hrow
  simp only [Option.getD_some] at hrow
  rw [hlr, hrow, hlc]

/-- Witness for C3 amended, at the spec's end-to-end scenario input. -/
theorem c3_amended_witness :
    transform_query_result qGood = (["month", "count"], [["Jan", "42"]]) ∧
    (["Jan", "42"] : List String).length = (["month", "count"] : List String).length :=
  ⟨by decide,
    c3_amended qGood ["month", "count"] [["Jan", "42"]] (by decide) (by decide)
      ["Jan", "42"] (by decide)⟩

/-! ## Claim C4 -/

/-- C4 as stated is false: on the input lacking the `statement_response`
key, `transform_query_result` does not fail with a typed parse error — it
returns the ordinary pair `([], [])`, the very value a well-formed empty
result also yields, so the caller cannot distinguish the two. -/
theorem c4_counterexample :
    transformParse qMissing = none ∧
    transform_query_result qMissing = ([], []) ∧
    transformParse qEmptyOk = some ([], []) ∧
    transform_query_result qMissing = transform_query_result qEmptyOk := by decide

/-- C4 amended: whenever the expected keys are absent (the parse fails), the
function does not crash: the `except KeyError` branch returns the ordinary
empty pair, indistinguishable from a successfully parsed empty result. -/
theorem c4_amended (q : QueryResult) (h : transformParse q = none) :
    transform_query_result q = ([], []) := by
  unfold transform_query_result
  rw [h]
  rfl

/-- Witness for C4 amended at the key-missing input. -/
theorem c4_amended_witness :
    transformParse qMissing = none ∧ transform_query_result qMissing = ([], []) :=
  ⟨by decide, c4_amended qMissing (by decide)⟩

/-! ## Claim C5 -/

/-- C5: `start_conversation` and `create_message` return the full message
record exactly when the wait-RPC returned with status COMPLETED; on every
other returned status both return the `None` failure sentinel instead of a
record. -/
theorem c5_completed_iff_record (s : MessageStatus) (m : Message) :
    (start_conversation (.returns s m) = .ok m ↔ s = .COMPLETED) ∧
    (create_message (.returns s m) = .ok m ↔ s = .COMPLETED) ∧
    (s ≠ .COMPLETED →
      start_conversation (.returns s m) = .pyNone ∧
      create_message (.returns s m) = .pyNone) := by
  by_cases hs : s = .COMPLETED <;> simp [start_conversation, create_message, hs]

/-- Witness for C5 at the non-COMPLETED status FAILED. -/
theorem c5_witness :
    start_conversation (.returns .FAILED mEx) = .pyNone ∧
    create_message (.returns .FAILED mEx) = .pyNone :=
  (c5_completed_iff_record .FAILED mEx).2.2 (by decide)

/-! ## Claim C10 -/

/-- C10 as stated is false: an error outside the `Exception` hierarchy (here
a `KeyboardInterrupt`) is not caught by the `except Exception` clause and
propagates out of `start_conversation`, so the result is neither a message
dictionary nor the `None` sentinel. -/
theorem c10_counterexample :
    start_conversation (.raises (.baseExc "KeyboardInterrupt")) =
      .raised (.baseExc "KeyboardInterrupt") ∧
    ¬ (start_conversation (.raises (.baseExc "KeyboardInterrupt")) = .pyNone ∨
        ∃ m, start_conversation (.raises (.baseExc "KeyboardInterrupt")) = .ok m) := by
  refine ⟨rfl, ?_⟩
  rintro (h | ⟨m, h⟩) <;> simp [start_conversation] at h

/-- C10 amended: for every wait outcome that returns, or raises an error
deriving from `Exception`, both calls are total at the client boundary —
they yield a message dictionary or the `None` sentinel, and nothing
propagates; only errors outside `Exception` escape. -/
theorem c10_amended (o : WaitOutcome) (h : catchableB o = true) :
    ((∃ m, start_conversation o = .ok m) ∨ start_conversation o = .pyNone) ∧
    ((∃ m, create_message o = .ok m) ∨ create_message o = .pyNone) := by
  cases o with
  | returns s m =>
    by_cases hs : s = .COMPLETED <;> simp [start_conversation, create_message, hs]
  | raises e =>
    cases e with
    | exc msg => simp [start_conversation, create_message]
    | baseExc msg => simp [catchableB] at h

/-- Witness for C10 amended at a raised `Exception`. -/
theorem c10_amended_witness :
    ((∃ m, start_conversation (.raises (.exc "boom")) = .ok m) ∨
      start_conversation (.raises (.exc "boom")) = .pyNone) ∧
    ((∃ m, create_message (.raises (.exc "boom")) = .ok m) ∨
      create_message (.raises (.exc "boom")) = .pyNone) :=
  c10_amended (.raises (.exc "boom")) (by decide)

/-! ## Claim C1 -/

/-- C1 as stated is false: on a message whose first attachment carries both
a truthy `text.content` and a query with non-empty description, the code
returns the text reply, not the table reply the claim requires — the text
branch is tested first. -/
theorem c1_counterexample :
    _format_response (some qGood) msgBoth = some (.text "hello") ∧
    attBoth.query = some { description := some "desc" } ∧
    _format_response (some qGood) msgBoth ≠
      some (.table "desc" (transform_query_result qGood).1
        (transform_query_result qGood).2) := by
  decide

/-- C1 amended: disambiguation of the first attachment is deterministic and
prioritizes TEXT — a truthy `text.content` always yields that text reply;
only otherwise does a query with truthy description yield the table reply
built from the fetched, normalized result; a truthy query with falsy
description yields the fixed placeholder text (not the no-content reply);
an attachment with neither yields the no-content placeholder; and the
result is never simultaneously a text and a table reply. -/
theorem c1_text_over_query (fetched : QueryResult) (att : Attachment)
    (rest : List Attachment) (mid cid : Option String) :
    (∀ s, contentOf att = some s → s ≠ "" →
      _format_response (some fetched) ⟨mid, cid, some (att :: rest)⟩ = some (.text s)) ∧
    (∀ q d, strTruthy (contentOf att) = false → att.query = some q →
      q.description = some d → d ≠ "" →
      _format_response (some fetched) ⟨mid, cid, some (att :: rest)⟩ =
        some (.table d (transform_query_result fetched).1
          (transform_query_result fetched).2)) ∧
    (∀ q, strTruthy (contentOf att) = false → att.query = some q →
      strTruthy q.description = false →
      _format_response (some fetched) ⟨mid, cid, some (att :: rest)⟩ =
        some (.text "No query description available")) ∧
    (strTruthy (contentOf att) = false → att.query = none →
      _format_response (some fetched) ⟨mid, cid, some (att :: rest)⟩ =
        some (.text "No response content available")) ∧
    (∀ s d c r2,
      _format_response (some fetched) ⟨mid, cid, some (att :: rest)⟩ = some (.text s) →
      _format_response (some fetched) ⟨mid, cid, some (att :: rest)⟩ ≠
        some (.table d c r2)) := by
  refine ⟨?_, ?_, ?_, ?_, ?_⟩
  · intro s hs hne
    have ht : strTruthy (some s) = true := by simp [strTruthy, hne]
    simp [_format_response, firstAttachment, formatAttachment, hs, ht]
  · intro q d hf hq hd hdne
    have htd : strTruthy (some d) = true := by simp [strTruthy, hdne]
    simp [_format_response, firstAttachment, formatAttachment, hf, hq, hd, htd]
  · intro q hf hq hdf
    simp [_format_response, firstAttachment, formatAttachment, hf, hq, hdf]
  · intro hf hqn
    simp [_format_response, firstAttachment, formatAttachment, hf, hqn]
  · intro s d c r2 hs
    rw [hs]
    simp

/-- Witness for C1 amended: the three reply shapes at concrete attachments. -/
theorem c1_text_over_query_witness :
    _format_response (some qGood) ⟨some "m1", some "c1", some [attTextOnly]⟩ =
      some (.text "hi") ∧
    _format_response (some qGood) ⟨some "m1", some "c1", some [attQueryOnly]⟩ =
      some (.table "desc" (transform_query_result qGood).1
        (transform_query_result qGood).2) ∧
    _format_response (some qGood)
        ⟨some "m1", some "c1", some [{ text := none, query := none }]⟩ =
      some (.text "No response content available") :=
  ⟨(c1_text_over_query qGood attTextOnly [] (some "m1") (some "c1")).1 "hi" rfl
      (by decide),
    (c1_text_over_query qGood attQueryOnly [] (some "m1") (some "c1")).2.1
      { description := some "desc" } "desc" rfl rfl rfl (by decide),
    (c1_text_over_query qGood { text := none, query := none } [] (some "m1")
      (some "c1")).2.2.2.1 rfl rfl⟩

/-! ## Claim C8 -/

/-- C8: the reply produced for a message with at least one attachment
depends only on the first attachment — replacing everything after the first
attachment never changes the output of `_format_response`. -/
theorem c8_first_attachment_only (fetched : Option QueryResult)
    (mid cid : Option String) (att : Attachment) (rest rest2 : List Attachment) :
    _format_response fetched ⟨mid, cid, some (att :: rest)⟩ =
      _format_response fetched ⟨mid, cid, some (att :: rest2)⟩ := rfl

/-! ## Claim C2 -/

/-- C2 as stated is false: on a transport failure (here a 500 response,
which `_handle_response` turns into the typed `GenieAPIError`),
`get_genie_rooms` swallows the error and returns `None` — the very value a
successful 200 response lacking the `data_rooms` key also produces, so the
caller receives no typed failure and cannot even distinguish failure from
that success. -/
theorem c2_counterexample :
    _handle_response
        ({ status := 500, body := { data_rooms := some [] } } : HttpResponse RoomsEnvelope) =
      .apiError "API request failed" ∧
    get_genie_rooms { status := 500, body := { data_rooms := some [] } } = none ∧
    get_genie_rooms { status := 200, body := { data_rooms := none } } = none ∧
    get_genie_rooms { status := 500, body := { data_rooms := some [] } } =
      get_genie_rooms { status := 200, body := { data_rooms := none } } := by
  decide

/-- C2 amended: on every transport failure (any 4xx/5xx status, i.e.
whenever `_handle_response` raises a typed error) `get_genie_rooms` catches
the error, logs it, and returns `None`; no typed failure reaches the
caller. -/
theorem c2_swallows_errors (env : RoomsEnvelope) (s : Nat)
    (h4 : 400 ≤ s) (h6 : s < 600) :
    get_genie_rooms { status := s, body := env } = none := by
  unfold get_genie_rooms _handle_response
  rw [if_pos ⟨h4, h6⟩]
  by_cases h401 : s = 401 <;> simp [h401]

/-- Witness for C2 amended at a 503 transport failure. -/
theorem c2_swallows_errors_witness :
    get_genie_rooms { status := 503, body := { data_rooms := some [] } } = none :=
  c2_swallows_errors { data_rooms := some [] } 503 (by decide) (by decide)

/-! ## Claim C6 -/

/-- C6 as stated is false: a 304 response is not 2xx and not 401, yet
`_handle_response` raises nothing — `raise_for_status` only raises for
statuses in [400, 600), so the 304 body is returned as a success. -/
theorem c6_counterexample :
    _handle_response ({ status := 304, body := () } : HttpResponse Unit) = .ok () ∧
    ¬ (200 ≤ 304 ∧ 304 < 300) ∧
    (304 : Nat) ≠ 401 ∧
    (_handle_response ({ status := 304, body := () } : HttpResponse Unit)).isApiError
      = false := by
  decide

/-- C6 amended: status 401 raises the authentication error; every other
status in [400, 600) raises the generic API error; every status below 400
(all 2xx, but also 1xx/3xx) and any status from 600 up returns the parsed
body; and the two error kinds are always distinguishable. -/
theorem c6_status_partition (β : Type) (r : HttpResponse β) :
    (r.status = 401 → _handle_response r = .authError "Authentication failed") ∧
    (400 ≤ r.status → r.status < 600 → r.status ≠ 401 →
      _handle_response r = .apiError "API request failed") ∧
    (r.status < 400 → _handle_response r = .ok r.body) ∧
    (600 ≤ r.status → _handle_response r = .ok r.body) ∧
    (∀ m1 m2 : String, (HandleResult.authError m1 : HandleResult β) ≠ .apiError m2) := by
  refine ⟨?_, ?_, ?_, ?_, ?_⟩
  · intro h
    simp [_handle_response, h]
  · intro h4 h6 hne
    unfold _handle_response
    rw [if_pos ⟨h4, h6⟩, if_neg hne]
  · intro h
    unfold _handle_response
    rw [if_neg (by omega)]
  · intro h
    unfold _handle_response
    rw [if_neg (by omega)]
  · intro m1 m2
    simp

/-- Witness for C6 amended at statuses 401, 500 and 200. -/
theorem c6_status_partition_witness :
    _handle_response ({ status := 401, body := () } : HttpResponse Unit) =
      .authError "Authentication failed" ∧
    _handle_response ({ status := 500, body := () } : HttpResponse Unit) =
      .apiError "API request failed" ∧
    _handle_response ({ status := 200, body := () } : HttpResponse Unit) = .ok () :=
  ⟨(c6_status_partition Unit { status := 401, body := () }).1 rfl,
    (c6_status_partition Unit { status := 500, body := () }).2.1 (by decide) (by decide)
      (by decide),
    (c6_status_partition Unit { status := 200, body := () }).2.2.1 (by decide)⟩

/-! ## Claim C7 -/

/-- A response whose status is not in the forcelist is delivered at once,
with no retry, whatever the remaining retry budget. -/
theorem runRetries_not_forcelist (stream : Nat → HttpResponse β)
    (remaining attempt : Nat) (h : (stream attempt).status ∉ status_forcelist) :
    runRetries stream remaining attempt = (attempt, some (stream attempt)) := by
  cases remaining <;> simp [runRetries, h]

/-- The number of retries performed never exceeds the retry budget. -/
theorem runRetries_retry_bound (stream : Nat → HttpResponse β) :
    ∀ remaining attempt : Nat,
      (runRetries stream remaining attempt).1 ≤ attempt + remaining := by
  intro remaining
  induction remaining with
  | zero =>
    intro attempt
    by_cases h : (stream attempt).status ∈ status_forcelist <;> simp [runRetries, h]
  | succ n ih =>
    intro attempt
    by_cases h : (stream attempt).status ∈ status_forcelist
    · simp only [runRetries, h, if_pos]
      exact le_trans (ih (attempt + 1)) (by omega)
    · simp [runRetries, h]

/-- C7 as stated is false in one respect: the backoff delays are not
exponential "starting at 0.5s" — urllib3 sleeps 0 before the first retry,
then `0.5s * 2 ** (n-1)`, so the configured factor of 500 ms produces the
delay sequence 0 ms, 1000 ms, 2000 ms. -/
theorem c7_counterexample :
    backoffSleeps 3 = [0, 1000, 2000] ∧
    get_backoff_time_ms 1 = 0 ∧
    get_backoff_time_ms 1 ≠ backoff_factor_ms := by
  decide

/-- C7 amended: with the configured policy (3 retries, statuses
500/502/503/504, backoff factor 0.5 s), three consecutive 503 responses
followed by a 200 yield the 200's payload with exactly 3 retries; the
backoff delays before the retries are 0 ms, 1000 ms and 2000 ms; a first
response outside the forcelist is returned with zero retries; and no run
ever performs more retries than the budget. -/
theorem c7_retry_policy :
    session_get stream503 = (3, some { status := 200, body := 42 }) ∧
    backoffSleeps MAX_RETRIES = [0, 1000, 2000] ∧
    (∀ stream : Nat → HttpResponse Nat, (stream 0).status ∉ status_forcelist →
      session_get stream = (0, some (stream 0))) ∧
    (∀ (stream : Nat → HttpResponse Nat) (remaining attempt : Nat),
      (runRetries stream remaining attempt).1 ≤ attempt + remaining) := by
  refine ⟨by decide, by decide, ?_, ?_⟩
  · intro stream h
    exact runRetries_not_forcelist stream MAX_RETRIES 0 h
  · intro stream remaining attempt
    exact runRetries_retry_bound stream remaining attempt

/-- Witness for C7 amended: a 404 is never retried. -/
theorem c7_retry_policy_witness :
    session_get (fun _ => ({ status := 404, body := 7 } : HttpResponse Nat)) =
      (0, some { status := 404, body := 7 }) :=
  c7_retry_policy.2.2.1 (fun _ => { status := 404, body := 7 }) (by decide)

/-! ## Claim C9 -/

/-- C9 as stated is false: the redacted form CAN equal the raw credential.
The five-character token whose first character is itself an asterisk is a
fixed point of the redaction: `redact "*abc1" = "*abc1"`. -/
theorem c9_counterexample :
    redact "*abc1" = "*abc1" ∧ 4 < ("*abc1" : String).length := by
  decide

/-- C9 amended: the redacted string follows the stated shape (asterisks
plus last four characters for tokens longer than four, the fixed mask
otherwise); it reveals at most the token's length and last four characters
(tokens agreeing on those redact identically); and for long tokens it
equals the raw token exactly when every character before the last four is
an asterisk. -/
theorem c9_redaction (t : String) :
    (4 < t.length →
      redact t = String.mk (List.replicate (t.length - 4) (Char.ofNat 42) ++
        t.data.drop (t.length - 4))) ∧
    (¬ 4 < t.length → redact t = "****") ∧
    (∀ t2 : String, t.length = t2.length →
      t.data.drop (t.length - 4) = t2.data.drop (t2.length - 4) →
      redact t = redact t2) ∧
    (4 < t.length →
      (redact t = t ↔ ∀ c ∈ t.data.take (t.length - 4), c = Char.ofNat 42)) := by
  refine ⟨?_, ?_, ?_, ?_⟩
  · intro h
    simp [redact, h]
  · intro h
    simp [redact, h]
  · intro t2 hlen hdrop
    by_cases h : 4 < t.length
    · have h2 : 4 < t2.length := hlen ▸ h
      simp only [redact]
      rw [if_pos h, if_pos h2, hdrop, hlen]
    · have h2 : ¬ 4 < t2.length := hlen ▸ h
      simp [redact, h, h2]
  · intro h
    have hdl : t.data.length = t.length := rfl
    unfold redact
    rw [if_pos h]
    constructor
    · intro heq c hc
      have hdata : List.replicate (t.length - 4) (Char.ofNat 42) ++
          t.data.drop (t.length - 4) = t.data := congrArg String.data heq
      have hsplit : t.data.take (t.length - 4) ++ t.data.drop (t.length - 4) =
          t.data := List.take_append_drop _ _
      have hrt : List.replicate (t.length - 4) (Char.ofNat 42) =
          t.data.take (t.length - 4) :=
        List.append_cancel_right (hdata.trans hsplit.symm)
      rw [← hrt] at hc
      exact List.eq_of_mem_replicate hc
    · intro hall
      have htake : t.data.take (t.length - 4) =
          List.replicate (t.length - 4) (Char.ofNat 42) := by
        rw [List.eq_replicate_iff]
        refine ⟨?_, hall⟩
        rw [List.length_take, hdl]
        omega
      calc String.mk (List.replicate (t.length - 4) (Char.ofNat 42) ++
              t.data.drop (t.length - 4))
          = String.mk (t.data.take (t.length - 4) ++ t.data.drop (t.length - 4)) := by
            rw [htake]
        _ = String.mk t.data := by rw [List.take_append_drop]
        _ = t := rfl

/-- Witness for C9 amended: two long tokens with the same length and last
four characters redact identically, and a short token gets the fixed mask. -/
theorem c9_redaction_witness :
    redact "aaaa1234" = redact "bbbb1234" ∧ redact "abc" = "****" :=
  ⟨(c9_redaction "aaaa1234").2.2.1 "bbbb1234" (by decide) (by decide),
    (c9_redaction "abc").2.1 (by decide)⟩

end Genie
